import Mathlib

/-!
Verification development for the resume desktop application.

The definitions below are a shallow embedding of the Python sources:
  * `models/type_validator.py` — string value-object validators (Email,
    PhoneNumber, Website, LinkedIn, GitHub, Date),
  * `models/models.py` — the aggregate data model, `to_dict` / `from_dict`
    serialization (the live module used by the application; the top-level
    legacy `models.py` variant is embedded in the `Legacy` namespace),
  * `latex/converter.py` — the LaTeX renderer.

Modelling conventions:
  * Python exceptions raised by validators/constructors are modelled with
    `Except String`; a raised `ValueError` is `.error msg`.
  * Value objects wrap strings; they are modelled as the wrapped `String`
    itself (the spec compares value objects by canonical string form).
  * `datetime.today()` is modelled by a single abstract instant `now : Nat`;
    a parsed `DD-MM-YYYY` date maps to a `Nat` code that is strictly
    monotone in (year, month, day) and leaves room below one day so that an
    intra-day "now" can sit strictly above any date's midnight.
  * Python regex `\d`, `\w`, `\s`, `str.lower`, `str.isdigit` and
    `str.strip` are modelled on their ASCII behaviour; no claim in this
    development depends on the non-ASCII corners of those classes.
  * Python's `re.match(pat)` where `pat` ends in `$` also accepts a single
    trailing newline after the core match; `pyDollar` models this.
  * Python dict/JSON values are modelled by the inductive `JValue`; a
    Python `set` of strings built from a list is modelled by `List.dedup`
    (set iteration order is unspecified in Python, so only set-level facts
    are stated about it; the list order otherwise records the iteration
    order that a concrete run would observe).
-/

/-! ### Generic string helpers -/

/-- Is `p` a (left) prefix of `l`? -/
def lPre : List Char → List Char → Bool
  | [], _ => true
  | _ :: _, [] => false
  | a :: ps, b :: bs => a == b && lPre ps bs

/-- Does the pattern occur (contiguously) inside the list? -/
def occursInAux (p : List Char) : List Char → Bool
  | [] => p.isEmpty
  | c :: rest => lPre p (c :: rest) || occursInAux p rest

/-- Python's `pat in s` substring test. -/
def occursIn (pat s : String) : Bool := occursInAux pat.data s.data

/-- Single-character split, mirroring Python `str.split(sep)` /
`String.splitOn` for a one-character separator (structural, so that the
kernel can evaluate it). -/
def splitChar (sep : Char) : List Char → List (List Char)
  | [] => [[]]
  | c :: rest =>
    let r := splitChar sep rest
    if c == sep then [] :: r
    else
      match r with
      | t :: ts => (c :: t) :: ts
      | [] => [[c]]

/-- `String.startsWith`, structurally. -/
def startsWithS (pat s : String) : Bool := lPre pat.data s.data

/-- `String.drop`, structurally. -/
def dropS (n : Nat) (s : String) : String := ⟨s.data.drop n⟩

/-- Does the string end with a newline? -/
def endsWithNl (s : String) : Bool := s.data.getLast? == some '\n'

/-- Drop the last character. -/
def dropLastChar (s : String) : String := ⟨s.data.dropLast⟩

/-- Python `str.strip()` (ASCII whitespace model), structurally. -/
def pyStrip (s : String) : String :=
  ⟨((s.data.dropWhile Char.isWhitespace).reverse.dropWhile Char.isWhitespace).reverse⟩

/-- Python `sep.join(parts)`, structurally. -/
def joinSep (sep : String) : List String → String
  | [] => ""
  | [s] => s
  | s :: rest => s ++ sep ++ joinSep sep rest

/-- Python `"".join(parts)`, structurally. -/
def concatAll (parts : List String) : String := parts.foldl (fun a b => a ++ b) ""

/-- The effect of a Python list comprehension over a fallible body: collect
the results, propagating the first raised error (structural `mapM`). -/
def mapME {α β : Type} (f : α → Except String β) : List α → Except String (List β)
  | [] => .ok []
  | x :: xs => do
    let y ← f x
    let ys ← mapME f xs
    pure (y :: ys)

/-- Python's `str.lower`, modelled on ASCII letters. -/
def asciiLower (s : String) : String := ⟨s.data.map Char.toLower⟩

/-- Python regex `$` with `re.match`: the core pattern must consume the
whole string, or the whole string minus one trailing newline. -/
def pyDollar (core : String → Bool) (s : String) : Bool :=
  core s || (endsWithNl s && core (dropLastChar s))

/-! ### `models/type_validator.py`: value-object validators -/

/-- Core of the regex `^[^@\s]+@[^@\s]+\.[^@\s]+$` (without the `$`
trailing-newline tolerance): one `@`, a non-empty whitespace-free local
part, and a domain containing a dot with non-empty pieces around it. -/
def emailCore (s : String) : Bool :=
  match splitChar '@' s.data with
  | [loc, rest] =>
    !loc.isEmpty &&
    loc.all (fun c => !c.isWhitespace) &&
    rest.all (fun c => !c.isWhitespace) &&
    ((rest.drop 1).dropLast.contains '.')
  | _ => false

def emailOk (s : String) : Bool := pyDollar emailCore s

/-- `Email.__init__`: regex check, then store the raw value. -/
def Email.mk? (value : String) : Except String String :=
  if emailOk value then .ok value
  else .error ("Invalid email address: " ++ value ++
    ". Format should be similar to \x27name@domain.com\x27")

/-- Core of the regex `^\d{10}$`: exactly ten digits. -/
def phoneCore (s : String) : Bool :=
  s.data.length == 10 && s.data.all Char.isDigit

def phoneOk (s : String) : Bool := pyDollar phoneCore s

/-- `PhoneNumber.__init__`: regex check, then store the raw value. -/
def PhoneNumber.mk? (value : String) : Except String String :=
  if phoneOk value then .ok value
  else .error ("Invalid phone number: " ++ value ++ ". Should be a 10 digit number.")

/-- A character of the regex class `[\w\-]` (ASCII model). -/
def urlWordChar (c : Char) : Bool := c.isAlphanum || c == '_' || c == '-'

/-- After the optional prefixes, the regex `[\w\-]+(\.[\w\-]+)+[/#?]?.*`
matches iff the maximal leading run of word chars is non-empty, is followed
by a literal dot, and that dot is followed by a word char (the trailing
`[/#?]?.*` then swallows everything newline-free). -/
def domainShape (u : List Char) : Bool :=
  let r := (u.takeWhile urlWordChar).length
  decide (1 ≤ r) &&
    (match u.drop r with
     | '.' :: c :: _ => urlWordChar c
     | _ => false)

/-- Core of `^(https?://)?(www\.)?[\w\-]+(\.[\w\-]+)+[/#?]?.*$`: try each
combination of the optional scheme / `www.` prefixes, then the domain
shape; `.` never matches a newline, so the core rejects embedded newlines. -/
def siteCore (s : String) : Bool :=
  s.data.all (fun c => c ≠ '\n') &&
    (let cands :=
      (if startsWithS "https://" s then [dropS 8 s] else []) ++
      (if startsWithS "http://" s then [dropS 7 s] else []) ++ [s]
    let cands2 := cands.foldr (fun t acc =>
      (if startsWithS "www." t then [dropS 4 t] else []) ++ [t] ++ acc) []
    cands2.any (fun t => domainShape t.data))

def websiteOk (s : String) : Bool := pyDollar siteCore s

/-- `Website.__init__`. -/
def Website.mk? (value : String) : Except String String :=
  if websiteOk value then .ok value
  else .error ("Invalid URL: " ++ value)

/-- `LinkedIn.__init__`: own prefix check, then the parent constructor. -/
def LinkedIn.mk? (value : String) : Except String String :=
  if !(startsWithS "https://www.linkedin.com/" value) then
    .error ("Invalid LinkedIn URL: " ++ value)
  else Website.mk? value

/-- `GitHub.__init__`: own prefix check, then the parent constructor. -/
def GitHub.mk? (value : String) : Except String String :=
  if !(startsWithS "https://github.com/" value) then
    .error ("Invalid GitHub URL: " ++ value)
  else Website.mk? value

/-! ### `Date` and the `datetime` model -/

def isLeap (y : Nat) : Bool := (y % 4 == 0 && y % 100 != 0) || y % 400 == 0

def daysInMonth (m y : Nat) : Nat :=
  if m == 2 then (if isLeap y then 29 else 28)
  else if m == 4 || m == 6 || m == 9 || m == 11 then 30
  else 31

def digitsVal (cs : List Char) : Nat :=
  cs.foldl (fun a c => a * 10 + (c.toNat - 48)) 0

/-- `datetime.strptime(value, "%d-%m-%Y")`: day and month are 1–2 digit
tokens (the generated regexes reject `0`/`00`), the year exactly 4 digits;
`datetime` then range-checks the calendar day and requires year ≥ 1. -/
def parseDMY (s : String) : Option (Nat × Nat × Nat) :=
  match splitChar '-' s.data with
  | [d, m, y] =>
    if !d.isEmpty && d.all Char.isDigit && decide (d.length ≤ 2) &&
       !m.isEmpty && m.all Char.isDigit && decide (m.length ≤ 2) &&
       y.all Char.isDigit && y.length == 4 then
      let dv := digitsVal d
      let mv := digitsVal m
      let yv := digitsVal y
      if decide (1 ≤ dv) && decide (dv ≤ 31) && decide (1 ≤ mv) &&
         decide (mv ≤ 12) && decide (1 ≤ yv) && decide (dv ≤ daysInMonth mv yv) then
        some (dv, mv, yv)
      else none
    else none
  | _ => none

def dmyOk (s : String) : Bool := (parseDMY s).isSome

/-- A `datetime` comparison code at midnight of a calendar date: strictly
monotone in (year, month, day); the factor leaves room for an intra-day
time below the next date. -/
def dmyCode (d m y : Nat) : Nat := ((y * 13 + m) * 32 + d) * 86400000000

structure Date where
  value : String
deriving DecidableEq, Repr

/-- `Date.__init__`: the token `present` (case-insensitively, canonicalized
to lowercase), otherwise a `DD-MM-YYYY` string kept verbatim. -/
def Date.mk? (value : String) : Except String Date :=
  if asciiLower value = "present" then .ok ⟨"present"⟩
  else
    match parseDMY value with
    | some _ => .ok ⟨value⟩
    | none => .error ("Invalid date (expected dd-mm-yyyy): " ++ value)

/-- `Date.to_datetime`: `present` is `datetime.today()` (the abstract
instant `now`); otherwise the parsed date's midnight code.  The fallback 0
is unreachable for constructor-produced dates. -/
def Date.toDatetime (now : Nat) (d : Date) : Nat :=
  if d.value = "present" then now
  else
    match parseDMY d.value with
    | some (dv, mv, yv) => dmyCode dv mv yv
    | none => 0

/-- A `Date` value is well-formed iff it is in the image of `Date.mk?`:
either the canonical `present`, or a verbatim parseable `DD-MM-YYYY`
string (which is then never a case variant of `present`). -/
def Date.wfb (d : Date) : Bool :=
  d.value == "present" || (dmyOk d.value && asciiLower d.value != "present")

/-! ### `models/models.py`: aggregate data model -/

structure Header where
  name : String
  email : Option String
  number : Option String
  linkedin : Option String
  portfolio : Option String
  github : Option String
deriving DecidableEq, Repr

/-- `Header.__init__` performs no validation: it stores its arguments. -/
def Header.init (name : String) (email number linkedin portfolio github : Option String) :
    Except String Header :=
  .ok ⟨name, email, number, linkedin, portfolio, github⟩

structure SkillType where
  name : String
  skills : List String
deriving DecidableEq, Repr

/-- `SkillType.__init__`: the skill set must be non-empty; the name is not
validated. -/
def SkillType.mk? (name : String) (skills : List String) : Except String SkillType :=
  if skills = [] then .error "Skills cannot be empty."
  else .ok ⟨name, skills⟩

structure SkillSection where
  skill_types : List SkillType
deriving DecidableEq, Repr

/-- `SkillSection.__init__` (live module): no validation. -/
def SkillSection.init (skill_types : List SkillType) : Except String SkillSection :=
  .ok ⟨skill_types⟩

structure BulletPoint where
  text : String
deriving DecidableEq, Repr

/-- `BulletPoint.__init__` (live module): non-empty, at most 255 chars. -/
def BulletPoint.mk? (text : String) : Except String BulletPoint :=
  if text = "" then .error "Bullet point text cannot be empty."
  else if text.length > 255 then .error "Bullet point text cannot exceed 255 characters."
  else .ok ⟨text⟩

structure Experience where
  position : String
  company : String
  description : List BulletPoint
  start_date : Date
  end_date : Date
deriving DecidableEq, Repr

/-- `Experience.__init__`: non-empty position/company and description, the
end date defaults to `present`, and the start date must be strictly before
the end date and not after `datetime.today()` (`now`). -/
def Experience.init (now : Nat) (position company : String)
    (description : List BulletPoint) (start_date : Date) (endOpt : Option Date) :
    Except String Experience :=
  if position = "" ∨ company = "" then .error "Position and company cannot be empty."
  else if description = [] then .error "Description cannot be empty."
  else
    let end_date := endOpt.getD ⟨"present"⟩
    if start_date.toDatetime now ≥ end_date.toDatetime now ∨ start_date.toDatetime now > now then
      .error "Start date cannot be after end date or present time."
    else .ok ⟨position, company, description, start_date, end_date⟩

structure ExperienceSection where
  experiences : List Experience
deriving DecidableEq, Repr

/-- `ExperienceSection.__init__` (live module): no validation — an empty
list is accepted. -/
def ExperienceSection.init (experiences : List Experience) : Except String ExperienceSection :=
  .ok ⟨experiences⟩

structure Project where
  name : String
  skills : List String
  description : List BulletPoint
  link : Option String
deriving DecidableEq, Repr

/-- `Project.__init__`: non-empty name, skills and description. -/
def Project.init (name : String) (skills : List String)
    (description : List BulletPoint) (link : Option String) : Except String Project :=
  if name = "" ∨ skills = [] then .error "Name and skills cannot be empty."
  else if description = [] then .error "Description cannot be empty."
  else .ok ⟨name, skills, description, link⟩

structure ProjectSection where
  projects : List Project
deriving DecidableEq, Repr

/-- `ProjectSection.__init__` (live module): no validation. -/
def ProjectSection.init (projects : List Project) : Except String ProjectSection :=
  .ok ⟨projects⟩

structure Education where
  school : String
  degree : String
  start_date : Date
  awards : List String
  gpa : Option ℚ
deriving DecidableEq, Repr

/-- `Education.__init__`: non-empty school/degree, start date strictly
before `datetime.today()` (`now`), GPA within [0, 4] when present; a
missing awards list is stored as `[]` (`awards or []`). -/
def Education.init (now : Nat) (school degree : String) (start_date : Date)
    (awards : Option (List String)) (gpa : Option ℚ) : Except String Education :=
  if degree = "" ∨ school = "" then .error "Degree and school cannot be empty."
  else if start_date.toDatetime now ≥ now then .error "Start date cannot be after end date."
  else if (match gpa with
           | some g => decide (g < 0) || decide (g > 4)
           | none => false) then .error "GPA must be between 0.0 and 4.0."
  else .ok ⟨school, degree, start_date, awards.getD [], gpa⟩

structure EducationSection where
  educations : List Education
deriving DecidableEq, Repr

/-- `EducationSection.__init__` (live module): no validation. -/
def EducationSection.init (educations : List Education) : Except String EducationSection :=
  .ok ⟨educations⟩

structure Resume where
  header : Header
  skills : Option SkillSection
  experience : Option ExperienceSection
  projects : Option ProjectSection
  education : Option EducationSection
deriving DecidableEq, Repr

/-- `Resume.__init__`: no validation. -/
def Resume.init (header : Header) (skills : Option SkillSection)
    (experience : Option ExperienceSection) (projects : Option ProjectSection)
    (education : Option EducationSection) : Except String Resume :=
  .ok ⟨header, skills, experience, projects, education⟩

/-! ### Legacy top-level `models.py` section constructors -/

namespace Legacy

/-- Legacy `ExperienceSection.__init__`: rejects an empty list. -/
def ExperienceSection.mk? (experiences : List Experience) :
    Except String ExperienceSection :=
  if experiences = [] then .error "Experience section cannot be empty."
  else .ok ⟨experiences⟩

/-- Legacy `ProjectSection.__init__`: rejects an empty list. -/
def ProjectSection.mk? (projects : List Project) : Except String ProjectSection :=
  if projects = [] then .error "Project section cannot be empty."
  else .ok ⟨projects⟩

/-- Legacy `EducationSection.__init__`: rejects an empty list. -/
def EducationSection.mk? (educations : List Education) : Except String EducationSection :=
  if educations = [] then .error "Education section cannot be empty."
  else .ok ⟨educations⟩

end Legacy

/-! ### Serialization: `to_dict` -/

inductive JValue where
  | null
  | str (s : String)
  | num (q : ℚ)
  | list (xs : List JValue)
  | obj (fields : List (String × JValue))

/-- An optional string field serialized as string-or-null. -/
def optJ : Option String → JValue
  | some s => .str s
  | none => .null

def Header.to_dict (h : Header) : JValue :=
  .obj [("name", .str h.name), ("email", optJ h.email), ("number", optJ h.number),
        ("linkedin", optJ h.linkedin), ("portfolio", optJ h.portfolio),
        ("github", optJ h.github)]

def SkillType.toJ (st : SkillType) : JValue :=
  .obj [("name", .str st.name), ("skills", .list (st.skills.map .str))]

def SkillSection.to_dict (s : SkillSection) : JValue :=
  .obj [("skill_types", .list (s.skill_types.map SkillType.toJ))]

def BulletPoint.to_dict (b : BulletPoint) : JValue :=
  .obj [("text", .str b.text)]

def Experience.to_dict (e : Experience) : JValue :=
  .obj [("position", .str e.position), ("company", .str e.company),
        ("description", .list (e.description.map BulletPoint.to_dict)),
        ("start_date", .str e.start_date.value), ("end_date", .str e.end_date.value)]

def ExperienceSection.to_dict (s : ExperienceSection) : JValue :=
  .obj [("experiences", .list (s.experiences.map Experience.to_dict))]

def Project.to_dict (p : Project) : JValue :=
  .obj [("name", .str p.name), ("skills", .list (p.skills.map .str)),
        ("description", .list (p.description.map BulletPoint.to_dict)),
        ("link", optJ p.link)]

def ProjectSection.to_dict (s : ProjectSection) : JValue :=
  .obj [("projects", .list (s.projects.map Project.to_dict))]

def Education.to_dict (e : Education) : JValue :=
  .obj [("school", .str e.school), ("degree", .str e.degree),
        ("start_date", .str e.start_date.value),
        ("awards", .list (e.awards.map .str)),
        ("gpa", match e.gpa with | some g => .num g | none => .null)]

def EducationSection.to_dict (s : EducationSection) : JValue :=
  .obj [("educations", .list (s.educations.map Education.to_dict))]

def Resume.to_dict (r : Resume) : JValue :=
  .obj [("header", r.header.to_dict),
        ("skills", match r.skills with | some s => s.to_dict | none => .null),
        ("experience", match r.experience with | some s => s.to_dict | none => .null),
        ("projects", match r.projects with | some s => s.to_dict | none => .null),
        ("education", match r.education with | some s => s.to_dict | none => .null)]

/-! ### Serialization: `from_dict` -/

/-- Association-list lookup, mirroring Python dict key lookup. -/
def lookupKey (k : String) : List (String × JValue) → Option JValue
  | [] => none
  | (k', v) :: rest => if k' = k then some v else lookupKey k rest

/-- Python `d.get(k)`; `none` when the receiver is not a dict (unreachable
on `to_dict` output). -/
def jGet : JValue → String → Option JValue
  | .obj fields, k => lookupKey k fields
  | _, _ => none

/-- Python `d.get(k, default)`. -/
def jGetD (j : JValue) (k : String) (dflt : JValue) : JValue := (jGet j k).getD dflt

/-- Python `d[k]` (KeyError on a missing key). -/
def jIdx (j : JValue) (k : String) : Except String JValue :=
  match jGet j k with
  | some v => .ok v
  | none => .error ("KeyError: " ++ k)

/-- Python truthiness of a JSON-like value. -/
def truthy : JValue → Bool
  | .null => false
  | .str s => !s.data.isEmpty
  | .num q => q != 0
  | .list xs => !xs.isEmpty
  | .obj fs => !fs.isEmpty

/-- A value used where Python reads a string; non-strings are modelled as a
failure (unreachable on `to_dict` output, where these slots hold strings). -/
def asStr : JValue → Except String String
  | .str s => .ok s
  | _ => .error "expected string"

def asList : JValue → Except String (List JValue)
  | .list xs => .ok xs
  | _ => .error "expected list"

def asStrList (xs : List JValue) : Except String (List String) := mapME asStr xs

/-- One optional contact field of `Resume.from_dict`:
`Ctor(header_data[k]) if header_data.get(k) else None`. -/
def fromContact (hd : JValue) (key : String) (mk : String → Except String String) :
    Except String (Option String) :=
  match jGet hd key with
  | some v =>
    if truthy v then do
      let s ← asStr v
      let e ← mk s
      pure (some e)
    else pure none
  | none => pure none

def fromHeaderJ (hd : JValue) : Except String Header := do
  let name ← asStr (jGetD hd "name" (.obj []))
  let email ← fromContact hd "email" Email.mk?
  let number ← fromContact hd "number" PhoneNumber.mk?
  let linkedin ← fromContact hd "linkedin" LinkedIn.mk?
  let portfolio ← fromContact hd "portfolio" Website.mk?
  let github ← fromContact hd "github" GitHub.mk?
  Header.init name email number linkedin portfolio github

/-- `SkillType(st["name"], set(st["skills"]))`; the Python set is modelled
by `List.dedup` (see the header comment: only set-level facts are stated). -/
def fromSkillTypeJ (st : JValue) : Except String SkillType := do
  let name ← asStr (← jIdx st "name")
  let skillsJ ← asList (← jIdx st "skills")
  let skills ← asStrList skillsJ
  SkillType.mk? name skills.dedup

def fromBulletJ (bp : JValue) : Except String BulletPoint := do
  let t ← asStr (← jIdx bp "text")
  BulletPoint.mk? t

def fromExperienceJ (now : Nat) (exp : JValue) : Except String Experience := do
  let position ← asStr (← jIdx exp "position")
  let company ← asStr (← jIdx exp "company")
  let descJ ← asList (jGetD exp "description" (.list []))
  let description ← mapME fromBulletJ descJ
  let start_date ← Date.mk? (← asStr (← jIdx exp "start_date"))
  let end_date ←
    match jGet exp "end_date" with
    | some v => if truthy v then do Date.mk? (← asStr v) else Date.mk? "present"
    | none => Date.mk? "present"
  Experience.init now position company description start_date (some end_date)

def fromProjectJ (proj : JValue) : Except String Project := do
  let name ← asStr (← jIdx proj "name")
  let skillsJ ← asList (jGetD proj "skills" (.list []))
  let skills ← asStrList skillsJ
  let descJ ← asList (jGetD proj "description" (.list []))
  let description ← mapME fromBulletJ descJ
  let link ←
    match jGet proj "link" with
    | some v =>
      if truthy v then do
        let s ← asStr v
        let w ← Website.mk? s
        pure (some w)
      else pure (none : Option String)
    | none => pure none
  Project.init name skills description link

def fromEducationJ (now : Nat) (edu : JValue) : Except String Education := do
  let school ← asStr (← jIdx edu "school")
  let degree ← asStr (← jIdx edu "degree")
  let start_date ← Date.mk? (← asStr (← jIdx edu "start_date"))
  let awards ←
    match jGet edu "awards" with
    | some (.list xs) => do
      let l ← asStrList xs
      pure (some l)
    | some .null => pure (none : Option (List String))
    | none => pure (none : Option (List String))
    | some _ => .error "expected list or null for awards"
  let gpa ←
    match jGet edu "gpa" with
    | some (.num q) => pure (some q)
    | some .null => pure (none : Option ℚ)
    | none => pure (none : Option ℚ)
    | some _ => .error "expected number or null for gpa"
  Education.init now school degree start_date awards gpa

/-- The skills block of `Resume.from_dict`. -/
def decodeSkills (data : JValue) : Except String (Option SkillSection) :=
  match jGet data "skills" with
  | some sv =>
    if truthy sv then do
      let xs ← asList (jGetD sv "skill_types" (.list []))
      let skill_types ← mapME fromSkillTypeJ xs
      pure (some (⟨skill_types⟩ : SkillSection))
    else pure (none : Option SkillSection)
  | none => pure none

/-- The experience block of `Resume.from_dict`. -/
def decodeExperience (now : Nat) (data : JValue) : Except String (Option ExperienceSection) :=
  match jGet data "experience" with
  | some ev =>
    if truthy ev then do
      let xs ← asList (jGetD ev "experiences" (.list []))
      let experiences ← mapME (fromExperienceJ now) xs
      pure (some (⟨experiences⟩ : ExperienceSection))
    else pure (none : Option ExperienceSection)
  | none => pure none

/-- The projects block of `Resume.from_dict`. -/
def decodeProjects (data : JValue) : Except String (Option ProjectSection) :=
  match jGet data "projects" with
  | some pv =>
    if truthy pv then do
      let xs ← asList (jGetD pv "projects" (.list []))
      let projectList ← mapME fromProjectJ xs
      pure (some (⟨projectList⟩ : ProjectSection))
    else pure (none : Option ProjectSection)
  | none => pure none

/-- The education block of `Resume.from_dict`. -/
def decodeEducation (now : Nat) (data : JValue) : Except String (Option EducationSection) :=
  match jGet data "education" with
  | some dv =>
    if truthy dv then do
      let xs ← asList (jGetD dv "educations" (.list []))
      let educations ← mapME (fromEducationJ now) xs
      pure (some (⟨educations⟩ : EducationSection))
    else pure (none : Option EducationSection)
  | none => pure none

def Resume.from_dict (now : Nat) (data : JValue) : Except String Resume := do
  let header ← fromHeaderJ (jGetD data "header" (.obj []))
  let skills ← decodeSkills data
  let experience ← decodeExperience now data
  let projects ← decodeProjects data
  let education ← decodeEducation now data
  pure ⟨header, skills, experience, projects, education⟩

/-! ### Well-formedness: the image of the validating constructors -/

def Header.wfb (h : Header) : Bool :=
  (match h.email with | some e => emailOk e | none => true) &&
  (match h.number with | some n => phoneOk n | none => true) &&
  (match h.linkedin with
   | some l => startsWithS "https://www.linkedin.com/" l && websiteOk l
   | none => true) &&
  (match h.portfolio with | some p => websiteOk p | none => true) &&
  (match h.github with
   | some g => startsWithS "https://github.com/" g && websiteOk g
   | none => true)

/-- Non-empty and duplicate-free (a Python `set`). -/
def SkillType.wfb (st : SkillType) : Bool :=
  !st.skills.isEmpty && st.skills.dedup == st.skills

def BulletPoint.wfb (b : BulletPoint) : Bool :=
  !(b.text == "") && decide (b.text.length ≤ 255)

def Experience.wfb (now : Nat) (e : Experience) : Bool :=
  !(e.position == "") && !(e.company == "") && !e.description.isEmpty &&
  e.description.all BulletPoint.wfb && e.start_date.wfb && e.end_date.wfb &&
  decide (e.start_date.toDatetime now < e.end_date.toDatetime now) &&
  decide (e.start_date.toDatetime now ≤ now)

def Project.wfb (p : Project) : Bool :=
  !(p.name == "") && !p.skills.isEmpty && !p.description.isEmpty &&
  p.description.all BulletPoint.wfb &&
  (match p.link with | some l => websiteOk l | none => true)

def Education.wfb (now : Nat) (ed : Education) : Bool :=
  !(ed.school == "") && !(ed.degree == "") && ed.start_date.wfb &&
  decide (ed.start_date.toDatetime now < now) &&
  (match ed.gpa with
   | some g => decide (0 ≤ g) && decide (g ≤ 4)
   | none => true)

def Resume.wfb (now : Nat) (r : Resume) : Bool :=
  r.header.wfb &&
  (match r.skills with | some s => s.skill_types.all SkillType.wfb | none => true) &&
  (match r.experience with
   | some s => s.experiences.all (Experience.wfb now) | none => true) &&
  (match r.projects with | some s => s.projects.all Project.wfb | none => true) &&
  (match r.education with
   | some s => s.educations.all (Education.wfb now) | none => true)

/-! ### `latex/converter.py`: the LaTeX renderer -/

def LATEX_PREAMBLE : String :=
  "\n%-------------------------\n% Resume in Latex\n% Author : Jake Gutierrez  (adapted for programmatic generation)\n% Based off of: https://github.com/sb2nov/resume\n% License : MIT\n%------------------------\n\n\\documentclass[letterpaper,11pt]\x7barticle\x7d\n\n\\usepackage\x7blatexsym\x7d\n\\usepackage[empty]\x7bfullpage\x7d\n\\usepackage\x7btitlesec\x7d\n\\usepackage\x7bmarvosym\x7d\n\\usepackage[usenames,dvipsnames]\x7bcolor\x7d\n\\usepackage\x7bverbatim\x7d\n\\usepackage\x7benumitem\x7d\n\\usepackage[hidelinks]\x7bhyperref\x7d\n\\usepackage\x7bfancyhdr\x7d\n\\usepackage[english]\x7bbabel\x7d\n\\usepackage\x7btabularx\x7d\n\\usepackage\x7bxcolor\x7d\n\\usepackage\x7bfontawesome5\x7d\n\n\\input\x7bglyphtounicode\x7d\n\n\\definecolor\x7bvibrantblue\x7d\x7bRGB\x7d\x7b0, 102, 204\x7d\n\n\\pagestyle\x7bfancy\x7d\n\\fancyhf\x7b\x7d\n\\fancyfoot\x7b\x7d\n\\renewcommand\x7b\\headrulewidth\x7d\x7b0pt\x7d\n\\renewcommand\x7b\\footrulewidth\x7d\x7b0pt\x7d\n\n% Margins (match user's file)\n\\addtolength\x7b\\oddsidemargin\x7d\x7b-0.6in\x7d\n\\addtolength\x7b\\evensidemargin\x7d\x7b-0.6in\x7d\n\\addtolength\x7b\\textwidth\x7d\x7b1.2in\x7d\n\\addtolength\x7b\\topmargin\x7d\x7b-.6in\x7d\n\\addtolength\x7b\\textheight\x7d\x7b1.2in\x7d\n\n\\urlstyle\x7bsame\x7d\n\n\\raggedbottom\n\\raggedright\n\\setlength\x7b\\tabcolsep\x7d\x7b0in\x7d\n\n% Section formatting\n\\titleformat\x7b\\section\x7d\x7b\n \\vspace\x7b-8pt\x7d\\scshape\\raggedright\\large\n\x7d\x7b\x7d\x7b0em\x7d\x7b\x7d[\\color\x7bblack\x7d\\titlerule \\vspace\x7b-3pt\x7d]\n\n\\pdfgentounicode=1\n\n% Custom commands (verbatim)\n\\newcommand\x7b\\resumeItem\x7d[1]\x7b\n \\item\\small\x7b\n \x7b#1 \\vspace\x7b-2pt\x7d\x7d \x7d\n\x7d\n\\newcommand\x7b\\resumeSubheading\x7d[4]\x7b\n \\vspace\x7b-1pt\x7d\\item\n \\begin\x7btabular*\x7d\x7b0.97\\textwidth\x7d[t]\x7bl@\x7b\\extracolsep\x7b\\fill\x7d\x7dr\x7d\n \\textbf\x7b#1\x7d & #2 \\\\\n \\textit\x7b\\small#3\x7d & \\textit\x7b\\small #4\x7d \\\\\n \\end\x7btabular*\x7d\\vspace\x7b-4pt\x7d\n\x7d\n\\newcommand\x7b\\resumeSubSubheading\x7d[2]\x7b\n \\item\n \\begin\x7btabular*\x7d\x7b0.97\\textwidth\x7d\x7bl@\x7b\\extracolsep\x7b\\fill\x7d\x7dr\x7d\n \\textit\x7b\\small#1\x7d & \\textit\x7b\\small #2\x7d \\\\\n \\end\x7btabular*\x7d\\vspace\x7b-4pt\x7d\n\x7d\n\\newcommand\x7b\\resumeProjectHeading\x7d[2]\x7b\n \\item\n \\begin\x7btabular*\x7d\x7b0.97\\textwidth\x7d\x7bl@\x7b\\extracolsep\x7b\\fill\x7d\x7dr\x7d\n \\small#1 & #2 \\\\\n \\end\x7btabular*\x7d\\vspace\x7b-4pt\x7d\n\x7d\n\\newcommand\x7b\\resumeSubItem\x7d[1]\x7b\\resumeItem\x7b#1\x7d\\vspace\x7b-4pt\x7d\x7d\n\\renewcommand\\labelitemii\x7b$\\vcenter\x7b\\hbox\x7b\\tiny$\\bullet$\x7d\x7d$\x7d\n\\newcommand\x7b\\resumeSubHeadingListStart\x7d\x7b\\begin\x7bitemize\x7d[leftmargin=0.15in, label=\x7b\x7d, itemsep=-0.25pt, topsep=0pt]\x7d\n\\newcommand\x7b\\resumeSubHeadingListEnd\x7d\x7b\\end\x7bitemize\x7d\x7d\n\\newcommand\x7b\\resumeItemListStart\x7d\x7b\\begin\x7bitemize\x7d[itemsep=-0.25pt, topsep=0pt]\x7d\n\\newcommand\x7b\\resumeItemListEnd\x7d\x7b\\end\x7bitemize\x7d\\vspace\x7b-3pt\x7d\x7d\n\n\\begin\x7bdocument\x7d\n"

def LATEX_END : String := "\\end\x7bdocument\x7d"

/-- The `_LATEX_SPECIALS` substitution table. -/
def latexSpecial (c : Char) : Option String :=
  if c == '&' then some "\\&"
  else if c == '%' then some "\\%"
  else if c == '$' then some "\\$"
  else if c == '#' then some "\\#"
  else if c == '_' then some "\\_"
  else if c == Char.ofNat 123 then some "\\\x7b"
  else if c == Char.ofNat 125 then some "\\\x7d"
  else if c == '~' then some "\\textasciitilde\x7b\x7d"
  else if c == '^' then some "\\textasciicircum\x7b\x7d"
  else if c == '\\' then some "\\textbackslash\x7b\x7d"
  else none

/-- `_LATEX_SPECIALS.get(ch, ch)`: the table entry, or the character itself. -/
def escPiece (c : Char) : String := (latexSpecial c).getD (String.singleton c)

/-- `esc`: escape LaTeX specials in plain text; `None` becomes the empty
string; otherwise a loop appends the table lookup of each character and the
pieces are joined. -/
def esc (text : Option String) : String :=
  match text with
  | none => ""
  | some s => concatAll (s.data.foldl (fun out c => out ++ [escPiece c]) [])

/-- `href(url, label, blue)`: plain escaped label when the url is falsy,
otherwise `\href{url}{label}` with the url verbatim and the label escaped
(wrapped in the blue color when `blue`). -/
def href (url : Option String) (label : String) (blue : Bool) : String :=
  match url with
  | none => esc (some label)
  | some u =>
    if u = "" then esc (some label)
    else if blue then
      "\\href\x7b" ++ u ++ "\x7d\x7b\\textcolor\x7bvibrantblue\x7d\x7b" ++
        esc (some label) ++ "\x7d\x7d"
    else
      "\\href\x7b" ++ u ++ "\x7d\x7b" ++ esc (some label) ++ "\x7d"

/-- `fa`: icon-name-to-control-sequence table, empty string when unknown. -/
def fa (icon_name : Option String) : String :=
  match icon_name with
  | none => ""
  | some n =>
    if n = "" then ""
    else if n = "Train" then "\\faTrain"
    else if n = "Heartbeat" then "\\faHeartbeat"
    else if n = "Trophy" then "\\faTrophy"
    else if n = "Dragon" then "\\faDragon"
    else if n = "Plus" then "\\faPlus"
    else if n = "GraduationCap" then "\\faGraduationCap"
    else if n = "ShareSquare" then "\\faShareSquare"
    else if n = "Github" then "\\faGithub"
    else if n = "Linkedin" then "\\faLinkedin"
    else if n = "Globe" then "\\faGlobe"
    else if n = "Envelope" then "\\faEnvelope"
    else if n = "Phone" then "\\faPhone"
    else ""

/-- `blue_icon`: colored icon wrapper with a tiny hspace. -/
def blue_icon (icon_name : Option String) : String :=
  let cmd := fa icon_name
  if cmd = "" then ""
  else "\x7b\\textcolor\x7bvibrantblue\x7d" ++ cmd ++ "\\hspace\x7b0.5mm\x7d\x7d "

/-- `maybe_icon_from_role`: keyword-based icon heuristic, first match wins. -/
def maybe_icon_from_role (role : String) : Option String :=
  let s := asciiLower role
  if occursIn "test" s || occursIn "automation" s then some "Train"
  else if occursIn "emg" s || occursIn "sensor" s || occursIn "bio" s then some "Heartbeat"
  else if occursIn "hackathon" s || occursIn "founder" s || occursIn "lead" s then some "Trophy"
  else if occursIn "karate" s || occursIn "martial" s then some "Dragon"
  else if occursIn "teacher" s || occursIn "tutor" s || occursIn "assistant" s then some "Plus"
  else none

/-- `build_header`: centered name, then contact chunks joined by the `$|$`
divider in the fixed order email, phone, LinkedIn, portfolio, GitHub. -/
def build_header (h : Header) : String :=
  let contact_chunks :=
    (match h.email with
     | some email =>
       ["    \x7b\\textcolor\x7bvibrantblue\x7d\\faEnvelope \\hspace\x7b0.5mm\x7d\x7d\n    " ++
        href (some ("mailto:" ++ email)) email true]
     | none => []) ++
    (match h.number with
     | some digits =>
       ["    \x7b\\textcolor\x7bvibrantblue\x7d\\faPhone \\hspace\x7b0.5mm\x7d\x7d\n    " ++
        href (some ("tel:" ++ ⟨digits.data.filter (fun c => c.isDigit || c == '+')⟩)) digits true]
     | none => []) ++
    (match h.linkedin with
     | some link =>
       ["    \x7b\\textcolor\x7bvibrantblue\x7d\\faLinkedin \\hspace\x7b0.5mm\x7d\x7d\n    " ++
        href (some link) "Linkedin" true]
     | none => []) ++
    (match h.portfolio with
     | some link =>
       ["    \x7b\\textcolor\x7bvibrantblue\x7d\\faGlobe \\hspace\x7b0.5mm\x7d\x7d\n    " ++
        href (some link) "Website" true]
     | none => []) ++
    (match h.github with
     | some link =>
       ["    \x7b\\textcolor\x7bvibrantblue\x7d\\faGithub \\hspace\x7b0.5mm\x7d\x7d\n    " ++
        href (some link) "GitHub" true]
     | none => [])
  joinSep "\n"
    ["\\begin\x7bcenter\x7d",
     "    \\textbf\x7b\\Huge \\scshape " ++ esc (some h.name) ++ "\x7d \\\\ \\vspace\x7b4pt\x7d",
     "    \\small ",
     joinSep " \n    $|$ \n    " contact_chunks,
     "\\end\x7bcenter\x7d",
     ""]

/-- `build_skills`: one line per skill group (bold name, colon, comma-joined
escaped skills); empty output when the section is absent or has no groups. -/
def build_skills : Option SkillSection → String
  | none => ""
  | some sk =>
    if sk.skill_types.isEmpty then ""
    else
      let inner_lines := sk.skill_types.map (fun st =>
        "     \\textbf\x7b" ++ esc (some st.name) ++ "\x7d\x7b: " ++
          esc (some (joinSep ", " st.skills)) ++ "\x7d \\\\")
      joinSep "\n"
        ["\\section\x7bSkills\x7d",
         " \\begin\x7bitemize\x7d[leftmargin=0.15in, label=\x7b\x7d]",
         "    \\small\x7b\\item\x7b",
         joinSep "\n" inner_lines,
         "    \x7d\x7d",
         " ",
         " \\end\x7bitemize\x7d",
         ""]

/-- One experience entry: the `\resumeSubheading` line (the model has no
explicit icon/link/location attributes, so the icon falls back to the
role-keyword heuristic and the links/location are absent) plus bullets. -/
def expEntryLines (e : Experience) : List String :=
  let icon := maybe_icon_from_role e.position
  let icon_prefix := blue_icon icon
  let role_label := "\\textbf\x7b" ++ href none e.position true ++ "\x7d"
  let left_top := icon_prefix ++ role_label
  let right_top := pyStrip (esc (some e.start_date.value) ++ " -- " ++ esc (some e.end_date.value))
  let left_bottom := href none e.company false
  let right_bottom := esc (some "")
  let heading := "\\resumeSubheading\x7b" ++ left_top ++ "\x7d\x7b" ++ right_top ++
    "\x7d\x7b" ++ left_bottom ++ "\x7d\x7b" ++ right_bottom ++ "\x7d"
  if e.description.isEmpty then [heading]
  else
    [heading, "      \\resumeItemListStart"] ++
    e.description.map (fun bp => "        \\resumeItem\x7b" ++ esc (some bp.text) ++ "\x7d") ++
    ["      \\resumeItemListEnd"]

def build_experience : Option ExperienceSection → String
  | none => ""
  | some ex =>
    if ex.experiences.isEmpty then ""
    else
      joinSep "\n"
        (["\\section\x7bExperience\x7d", "", "\\resumeSubHeadingListStart"] ++
         (ex.experiences.map expEntryLines).flatten ++
         ["\\resumeSubHeadingListEnd", ""])

/-- One project entry (the icon attribute is absent in the model, so the
default `ShareSquare` glyph is always used). -/
def projEntryLines (p : Project) : List String :=
  let skills := joinSep ", " p.skills
  let left :=
    "\x7b\\textcolor\x7bvibrantblue\x7d" ++ fa (some "ShareSquare") ++
    " \\hspace\x7b0.5mm\x7d \\textbf\x7b" ++ href p.link p.name true ++
    "\x7d\x7d $|$ \\emph\x7b\\textbf\x7b" ++ esc (some skills) ++ "\x7d\x7d"
  ["      \\resumeSubHeadingListStart",
   "\\resumeProjectHeading\x7b" ++ left ++ "\x7d\x7b\x7d"] ++
  (if p.description.isEmpty then [] else
    ["          \\resumeItemListStart"] ++
    p.description.map (fun bp => "            \\resumeItem\x7b" ++ esc (some bp.text) ++ "\x7d") ++
    ["          \\resumeItemListEnd"]) ++
  ["    \\resumeSubHeadingListEnd", ""]

def build_projects : Option ProjectSection → String
  | none => ""
  | some ps =>
    if ps.projects.isEmpty then ""
    else
      joinSep "\n"
        (["\\section\x7bProjects\x7d", ""] ++ (ps.projects.map projEntryLines).flatten)

/-- Python `str(gpa)` for the stored GPA number; the exact float formatting
is abstracted by the rational's string form (no claim depends on it). -/
def floatRepr (q : ℚ) : String := toString q

/-- `f"{gpa} GPA" if "GPA" not in str(gpa) else str(gpa)`. -/
def gpaRender (g : ℚ) : String :=
  let s := floatRepr g
  if occursIn "GPA" s then s else s ++ " GPA"

/-- One education entry line (no end date, school link or location exist in
the model, so those render as the single start date and empty slots). -/
def eduEntryLine (edu : Education) : String :=
  let when := esc (some edu.start_date.value)
  let tail_bits :=
    (if edu.degree = "" then [] else [edu.degree]) ++
    (if edu.awards.isEmpty then [] else [joinSep ", " edu.awards]) ++
    (match edu.gpa with | some g => [gpaRender g] | none => [])
  let third := joinSep ", " (tail_bits.filter (fun t => t ≠ ""))
  let left_top :=
    "\x7b\\textcolor\x7bvibrantblue\x7d\\faGraduationCap\\hspace\x7b0.5mm\x7d \\textbf\x7b" ++
    href none edu.school true ++ "\x7d\x7d"
  "\\resumeSubheading\x7b" ++ left_top ++ "\x7d\x7b" ++ when ++ "\x7d\x7b" ++
    esc (some third) ++ "\x7d\x7b" ++ esc (some "") ++ "\x7d"

def build_education : Option EducationSection → String
  | none => ""
  | some es =>
    if es.educations.isEmpty then ""
    else
      joinSep "\n"
        (["%-----------EDUCATION-----------", "\\section\x7bEducation\x7d",
          "  \\resumeSubHeadingListStart"] ++
         es.educations.map eduEntryLine ++
         ["  \\resumeSubHeadingListEnd", ""])

/-- `resume_to_latex`: preamble, the five builders in order, closing
marker; empty parts are dropped before joining with newlines. -/
def resume_to_latex (r : Resume) : String :=
  let parts := [LATEX_PREAMBLE, build_header r.header, build_skills r.skills,
                build_experience r.experience, build_projects r.projects,
                build_education r.education, LATEX_END]
  joinSep "\n" (parts.filter (fun p => p ≠ ""))

/-! ### Statement-level definitions -/

/-- Lift a relation to options: both absent, or both present and related. -/
def optRel {α : Type} (r : α → α → Prop) : Option α → Option α → Prop
  | none, none => True
  | some x, some y => r x y
  | _, _ => False

/-- Equality of the string forms the spec's round-trip law talks about:
group name and the (unordered) set of skill names. -/
def SkillType.strEquiv (a b : SkillType) : Prop :=
  a.name = b.name ∧ ∀ x : String, x ∈ a.skills ↔ x ∈ b.skills

def Experience.strEquiv (a b : Experience) : Prop :=
  a.position = b.position ∧ a.company = b.company ∧
  a.description.map BulletPoint.text = b.description.map BulletPoint.text ∧
  a.start_date.value = b.start_date.value ∧ a.end_date.value = b.end_date.value

def Project.strEquiv (a b : Project) : Prop :=
  a.name = b.name ∧ a.skills = b.skills ∧
  a.description.map BulletPoint.text = b.description.map BulletPoint.text ∧
  a.link = b.link

def Education.strEquiv (a b : Education) : Prop :=
  a.school = b.school ∧ a.degree = b.degree ∧ a.start_date.value = b.start_date.value ∧
  a.awards = b.awards ∧ a.gpa = b.gpa

def Header.strEquiv (a b : Header) : Prop :=
  a.name = b.name ∧ a.email = b.email ∧ a.number = b.number ∧
  a.linkedin = b.linkedin ∧ a.portfolio = b.portfolio ∧ a.github = b.github

/-- Observable (string-form) equality of two documents, field by field, as
in the round-trip claim. -/
def Resume.strEquiv (a b : Resume) : Prop :=
  Header.strEquiv a.header b.header ∧
  optRel (fun s t => List.Forall₂ SkillType.strEquiv s.skill_types t.skill_types)
    a.skills b.skills ∧
  optRel (fun s t => List.Forall₂ Experience.strEquiv s.experiences t.experiences)
    a.experience b.experience ∧
  optRel (fun s t => List.Forall₂ Project.strEquiv s.projects t.projects)
    a.projects b.projects ∧
  optRel (fun s t => List.Forall₂ Education.strEquiv s.educations t.educations)
    a.education b.education

/-- The spec-side predicate of claim C3: a string consisting of exactly 10
decimal digits. -/
def specTenDigits (s : String) : Bool :=
  s.data.length == 10 && s.data.all Char.isDigit

/-- The ten characters of the `_LATEX_SPECIALS` substitution table. -/
def latexSpecialChars : List Char :=
  ['&', '%', '$', '#', '_', Char.ofNat 123, Char.ofNat 125, '~', '^', '\\']

/-- Everything `resume_to_latex` emits after the preamble and its newline. -/
def renderTail (r : Resume) : String :=
  joinSep "\n"
    (([build_header r.header, build_skills r.skills, build_experience r.experience,
       build_projects r.projects, build_education r.education,
       LATEX_END]).filter (fun p => p ≠ ""))

/-- The same tail with no skills contribution at all: what
`resume_to_latex` emits after the preamble when the skills block is gone. -/
def noSkillsTail (r : Resume) : String :=
  joinSep "\n"
    (([build_header r.header, build_experience r.experience,
       build_projects r.projects, build_education r.education,
       LATEX_END]).filter (fun p => p ≠ ""))

/-! ### Concrete sample documents used by witnesses -/

def sampleHeader : Header :=
  ⟨"Alice Example", some "alice@example.com", some "1234567890",
   some "https://www.linkedin.com/in/fake-user-alice/", some "https://portfolio.com",
   some "https://github.com/fake-user-alice/"⟩

/-- A fully populated well-formed resume (mirrors the repository's own
`make_sample_resume` test fixture). -/
def sampleResume : Resume :=
  ⟨sampleHeader,
   some ⟨[⟨"Programming", ["Python", "C++"]⟩, ⟨"Web", ["HTML", "CSS"]⟩]⟩,
   some ⟨[⟨"Developer", "Tech Co", [⟨"Built cool stuff"⟩], ⟨"01-01-2022"⟩, ⟨"01-01-2023"⟩⟩]⟩,
   some ⟨[⟨"Portfolio Site", ["React", "Tailwind"], [⟨"Built personal portfolio"⟩],
          some "https://example.com"⟩]⟩,
   some ⟨[⟨"University X", "BSc CS", ⟨"01-09-2019"⟩, ["Deans List"], none⟩]⟩⟩

/-- An abstract "today": noon on 2025-06-01 in the datetime code model. -/
def sampleNow : Nat := dmyCode 1 6 2025 + 43200000000

/-- A resume whose skills block is absent. -/
def noSkillsResume : Resume :=
  ⟨⟨"Bob", none, none, none, none, none⟩, none,
   some ⟨[⟨"Developer", "Tech Co", [⟨"Built cool stuff"⟩], ⟨"01-01-2022"⟩, ⟨"01-01-2023"⟩⟩]⟩,
   none, none⟩

/-- Two documents holding the same unordered skill-name set, in the two
iteration orders a Python `set` could expose. -/
def permResumeA : Resume :=
  ⟨⟨"A", none, none, none, none, none⟩, some ⟨[⟨"Lang", ["Python", "C++"]⟩]⟩,
   none, none, none⟩

def permResumeB : Resume :=
  ⟨⟨"A", none, none, none, none, none⟩, some ⟨[⟨"Lang", ["C++", "Python"]⟩]⟩,
   none, none, none⟩

/-! ### Helper lemmas: monadic reduction and generic facts -/

theorem exBind_ok {α β : Type} (a : α) (k : α → Except String β) :
    (Except.ok a >>= k : Except String β) = k a := rfl

theorem exPure_eq {α : Type} (a : α) : (pure a : Except String α) = .ok a := rfl

/-- `mapME` over a faithfully serialized list reconstructs it. -/
theorem mapME_map_ok {α β : Type} (f : β → Except String α) (g : α → β)
    (l : List α) (h : ∀ x ∈ l, f (g x) = .ok x) : mapME f (l.map g) = .ok l := by
  induction l with
  | nil => rfl
  | cons x xs ih =>
    have hx := h x (by simp)
    have hxs := ih (fun y hy => h y (by simp [hy]))
    simp [mapME, hx, hxs, exBind_ok]

theorem data_isEmpty_false {s : String} (h : s ≠ "") : s.data.isEmpty = false := by
  rcases s with ⟨l⟩
  cases l with
  | nil => exact absurd rfl h
  | cons c cs => rfl

theorem emailOk_ne_empty {s : String} (h : emailOk s = true) : s ≠ "" := by
  intro hs; subst hs; exact absurd h (by decide)

theorem phoneOk_ne_empty {s : String} (h : phoneOk s = true) : s ≠ "" := by
  intro hs; subst hs; exact absurd h (by decide)

theorem websiteOk_ne_empty {s : String} (h : websiteOk s = true) : s ≠ "" := by
  intro hs; subst hs; exact absurd h (by decide)

theorem dmyOk_ne_empty {s : String} (h : dmyOk s = true) : s ≠ "" := by
  intro hs; subst hs; exact absurd h (by decide)

theorem dateWfb_ne_empty {d : Date} (h : d.wfb = true) : d.value ≠ "" := by
  simp only [Date.wfb, Bool.or_eq_true, Bool.and_eq_true, beq_iff_eq, bne_iff_ne] at h
  rcases h with h | ⟨h1, _⟩
  · rw [h]; intro hc; exact absurd hc (by decide)
  · exact dmyOk_ne_empty h1

/-- A well-formed date is reconstructed exactly by the `Date` validator. -/
theorem date_reconstruct {d : Date} (h : d.wfb = true) : Date.mk? d.value = .ok d := by
  obtain ⟨v⟩ := d
  simp only [Date.wfb, Bool.or_eq_true, Bool.and_eq_true, beq_iff_eq, bne_iff_ne] at h
  rcases h with h | ⟨h1, h2⟩
  · subst h; rfl
  · simp only [dmyOk, Option.isSome_iff_exists] at h1
    obtain ⟨t, ht⟩ := h1
    simp [Date.mk?, h2, ht]

/-! ### Helper lemmas: per-aggregate round trips -/

theorem skillType_roundtrip {st : SkillType} (h : st.wfb = true) :
    fromSkillTypeJ st.toJ = .ok st := by
  obtain ⟨name, skills⟩ := st
  simp only [SkillType.wfb, Bool.and_eq_true, Bool.not_eq_true', beq_iff_eq] at h
  obtain ⟨hne, hdedup⟩ := h
  have hne' : skills ≠ [] := by
    intro hc; rw [hc] at hne; exact absurd hne (by decide)
  have hmap : mapME asStr (skills.map JValue.str) = .ok skills :=
    mapME_map_ok asStr JValue.str skills (fun x _ => rfl)
  simp [fromSkillTypeJ, SkillType.toJ, jIdx, jGet, lookupKey, asStr, asList,
    asStrList, hmap, hdedup, SkillType.mk?, hne', exBind_ok]

theorem bullet_roundtrip {b : BulletPoint} (h : b.wfb = true) :
    fromBulletJ b.to_dict = .ok b := by
  obtain ⟨text⟩ := b
  simp only [BulletPoint.wfb, Bool.and_eq_true, Bool.not_eq_true', beq_iff_eq,
    beq_eq_false_iff_ne, decide_eq_true_eq] at h
  obtain ⟨hne, hlen⟩ := h
  simp [fromBulletJ, BulletPoint.to_dict, jIdx, jGet, lookupKey, asStr,
    BulletPoint.mk?, hne, Nat.not_lt.mpr hlen, exBind_ok]

theorem bnot_beq_empty {s : String} (h : (!(s == "")) = true) : s ≠ "" := by
  simpa using h

theorem bnot_isEmpty {α : Type} {l : List α} (h : (!l.isEmpty) = true) : l ≠ [] := by
  intro hc; subst hc; simp at h

theorem fromContact_eval (hd : JValue) (key : String) (mk : String → Except String String)
    (v : Option String) (hfind : jGet hd key = some (optJ v))
    (hval : ∀ s, v = some s → s ≠ "" ∧ mk s = .ok s) :
    fromContact hd key mk = .ok v := by
  unfold fromContact
  rw [hfind]
  cases v with
  | none => rfl
  | some s =>
    obtain ⟨hne, hmk⟩ := hval s rfl
    simp [optJ, truthy, data_isEmpty_false hne, asStr, hmk, exBind_ok]

theorem header_roundtrip {h : Header} (hw : h.wfb = true) :
    fromHeaderJ h.to_dict = .ok h := by
  obtain ⟨n, e, ph, li, po, gh⟩ := h
  simp only [Header.wfb, Bool.and_eq_true] at hw
  obtain ⟨⟨⟨⟨he, hp⟩, hl⟩, hpo⟩, hg⟩ := hw
  have ce : fromContact (Header.to_dict ⟨n, e, ph, li, po, gh⟩) "email" Email.mk? = .ok e := by
    refine fromContact_eval _ _ _ _ rfl ?_
    intro s hs; subst hs
    exact ⟨emailOk_ne_empty he, by simp [Email.mk?]; simpa using he⟩
  have cp : fromContact (Header.to_dict ⟨n, e, ph, li, po, gh⟩) "number" PhoneNumber.mk? = .ok ph := by
    refine fromContact_eval _ _ _ _ rfl ?_
    intro s hs; subst hs
    exact ⟨phoneOk_ne_empty hp, by simp [PhoneNumber.mk?]; simpa using hp⟩
  have cl : fromContact (Header.to_dict ⟨n, e, ph, li, po, gh⟩) "linkedin" LinkedIn.mk? = .ok li := by
    refine fromContact_eval _ _ _ _ rfl ?_
    intro s hs; subst hs
    simp only [Bool.and_eq_true] at hl
    exact ⟨websiteOk_ne_empty hl.2, by simp [LinkedIn.mk?, Website.mk?, hl.1, hl.2]⟩
  have cpo : fromContact (Header.to_dict ⟨n, e, ph, li, po, gh⟩) "portfolio" Website.mk? = .ok po := by
    refine fromContact_eval _ _ _ _ rfl ?_
    intro s hs; subst hs
    exact ⟨websiteOk_ne_empty hpo, by simp [Website.mk?]; simpa using hpo⟩
  have cg : fromContact (Header.to_dict ⟨n, e, ph, li, po, gh⟩) "github" GitHub.mk? = .ok gh := by
    refine fromContact_eval _ _ _ _ rfl ?_
    intro s hs; subst hs
    simp only [Bool.and_eq_true] at hg
    exact ⟨websiteOk_ne_empty hg.2, by simp [GitHub.mk?, Website.mk?, hg.1, hg.2]⟩
  have hN : asStr (jGetD (Header.to_dict ⟨n, e, ph, li, po, gh⟩) "name" (.obj [])) = .ok n := rfl
  simp only [fromHeaderJ, hN, ce, cp, cl, cpo, cg, exBind_ok, Header.init]

theorem experience_roundtrip {now : Nat} {e : Experience} (hw : Experience.wfb now e = true) :
    fromExperienceJ now e.to_dict = .ok e := by
  obtain ⟨pos, comp, desc, sd, ed⟩ := e
  simp only [Experience.wfb, Bool.and_eq_true] at hw
  obtain ⟨⟨⟨⟨⟨⟨⟨hpos, hcomp⟩, hdesc⟩, hall⟩, hsd⟩, hed⟩, hlt⟩, hle⟩ := hw
  have hpos' := bnot_beq_empty hpos
  have hcomp' := bnot_beq_empty hcomp
  have hdesc' := bnot_isEmpty hdesc
  rw [decide_eq_true_eq] at hlt hle
  have hmapD : mapME fromBulletJ (desc.map BulletPoint.to_dict) = .ok desc :=
    mapME_map_ok _ _ _ (fun b hb => bullet_roundtrip (List.all_eq_true.mp hall b hb))
  have hedne := dateWfb_ne_empty hed
  have hor : ¬(pos = "" ∨ comp = "") := by
    intro hc; rcases hc with hc | hc
    · exact hpos' hc
    · exact hcomp' hc
  have hdate : ¬(Date.toDatetime now sd ≥ Date.toDatetime now ed ∨
      Date.toDatetime now sd > now) := by omega
  simp [fromExperienceJ, Experience.to_dict, jIdx, jGet, lookupKey, jGetD, asStr, asList,
    truthy, exBind_ok, exPure_eq, hmapD, date_reconstruct hsd, date_reconstruct hed,
    data_isEmpty_false hedne, Experience.init, hor, hdesc', hdate]

theorem project_roundtrip {p : Project} (hw : p.wfb = true) :
    fromProjectJ p.to_dict = .ok p := by
  obtain ⟨n, sk, desc, li⟩ := p
  simp only [Project.wfb, Bool.and_eq_true] at hw
  obtain ⟨⟨⟨⟨hn, hsk⟩, hdesc⟩, hall⟩, hli⟩ := hw
  have hn' := bnot_beq_empty hn
  have hsk' := bnot_isEmpty hsk
  have hdesc' := bnot_isEmpty hdesc
  have hmapS : mapME asStr (sk.map JValue.str) = .ok sk :=
    mapME_map_ok asStr JValue.str sk (fun x _ => rfl)
  have hmapD : mapME fromBulletJ (desc.map BulletPoint.to_dict) = .ok desc :=
    mapME_map_ok _ _ _ (fun b hb => bullet_roundtrip (List.all_eq_true.mp hall b hb))
  have hor : ¬(n = "" ∨ sk = []) := by
    intro hc; rcases hc with hc | hc
    · exact hn' hc
    · exact hsk' hc
  cases li with
  | none =>
    simp [fromProjectJ, Project.to_dict, jIdx, jGet, lookupKey, jGetD, asStr, asList,
      asStrList, optJ, truthy, exBind_ok, exPure_eq, hmapS, hmapD, Project.init, hor, hdesc']
  | some l =>
    have hl : websiteOk l = true := by simpa using hli
    have hlne := websiteOk_ne_empty hl
    simp [fromProjectJ, Project.to_dict, jIdx, jGet, lookupKey, jGetD, asStr, asList,
      asStrList, optJ, truthy, data_isEmpty_false hlne, Website.mk?, hl, exBind_ok,
      exPure_eq, hmapS, hmapD, Project.init, hor, hdesc']

theorem education_roundtrip {now : Nat} {ed : Education} (hw : Education.wfb now ed = true) :
    fromEducationJ now ed.to_dict = .ok ed := by
  obtain ⟨sch, deg, sd, aw, gp⟩ := ed
  simp only [Education.wfb, Bool.and_eq_true] at hw
  obtain ⟨⟨⟨⟨hsch, hdeg⟩, hsd⟩, hlt⟩, hgp⟩ := hw
  have hsch' := bnot_beq_empty hsch
  have hdeg' := bnot_beq_empty hdeg
  rw [decide_eq_true_eq] at hlt
  have hmapA : mapME asStr (aw.map JValue.str) = .ok aw :=
    mapME_map_ok asStr JValue.str aw (fun x _ => rfl)
  have hor : ¬(deg = "" ∨ sch = "") := by
    intro hc; rcases hc with hc | hc
    · exact hdeg' hc
    · exact hsch' hc
  have hdate : ¬(Date.toDatetime now sd ≥ now) := by omega
  cases gp with
  | none =>
    simp [fromEducationJ, Education.to_dict, jIdx, jGet, lookupKey, jGetD, asStr, asList,
      asStrList, exBind_ok, exPure_eq, hmapA, date_reconstruct hsd, Education.init, hor, hdate]
  | some g =>
    simp only [Bool.and_eq_true, decide_eq_true_eq] at hgp
    have hg1 : ¬(g < 0) := not_lt.mpr hgp.1
    have hg2 : ¬(g > 4) := not_lt.mpr hgp.2
    simp [fromEducationJ, Education.to_dict, jIdx, jGet, lookupKey, jGetD, asStr, asList,
      asStrList, exBind_ok, exPure_eq, hmapA, date_reconstruct hsd, Education.init, hor,
      hdate, hg1, hg2]

theorem decodeSkills_eval (hd' : Header) (sk : Option SkillSection)
    (ex : Option ExperienceSection) (pj : Option ProjectSection) (ed : Option EducationSection)
    (h : (match sk with
          | some s => s.skill_types.all SkillType.wfb
          | none => true) = true) :
    decodeSkills (Resume.to_dict ⟨hd', sk, ex, pj, ed⟩) = .ok sk := by
  rcases sk with _ | ⟨⟨stl⟩⟩
  · rfl
  · have hmap := mapME_map_ok fromSkillTypeJ SkillType.toJ stl
      (fun st hst => skillType_roundtrip (List.all_eq_true.mp h st hst))
    simp [decodeSkills, Resume.to_dict, SkillSection.to_dict, jGet, jGetD, lookupKey,
      asList, truthy, exBind_ok, exPure_eq, hmap]

theorem decodeExperience_eval (now : Nat) (hd' : Header) (sk : Option SkillSection)
    (ex : Option ExperienceSection) (pj : Option ProjectSection) (ed : Option EducationSection)
    (h : (match ex with
          | some s => s.experiences.all (Experience.wfb now)
          | none => true) = true) :
    decodeExperience now (Resume.to_dict ⟨hd', sk, ex, pj, ed⟩) = .ok ex := by
  rcases ex with _ | ⟨⟨exl⟩⟩
  · rcases sk with _ | _ <;> rfl
  · have hmap := mapME_map_ok (fromExperienceJ now) Experience.to_dict exl
      (fun e he => experience_roundtrip (List.all_eq_true.mp h e he))
    rcases sk with _ | _ <;>
    simp [decodeExperience, Resume.to_dict, ExperienceSection.to_dict, SkillSection.to_dict,
      jGet, jGetD, lookupKey, asList, truthy, exBind_ok, exPure_eq, hmap]

theorem decodeProjects_eval (hd' : Header) (sk : Option SkillSection)
    (ex : Option ExperienceSection) (pj : Option ProjectSection) (ed : Option EducationSection)
    (h : (match pj with
          | some s => s.projects.all Project.wfb
          | none => true) = true) :
    decodeProjects (Resume.to_dict ⟨hd', sk, ex, pj, ed⟩) = .ok pj := by
  rcases pj with _ | ⟨⟨pjl⟩⟩
  · rcases sk with _ | _ <;> rcases ex with _ | _ <;> rfl
  · have hmap := mapME_map_ok fromProjectJ Project.to_dict pjl
      (fun p hp => project_roundtrip (List.all_eq_true.mp h p hp))
    rcases sk with _ | _ <;> rcases ex with _ | _ <;>
    simp [decodeProjects, Resume.to_dict, ProjectSection.to_dict, SkillSection.to_dict,
      ExperienceSection.to_dict, jGet, jGetD, lookupKey, asList, truthy, exBind_ok,
      exPure_eq, hmap]

theorem decodeEducation_eval (now : Nat) (hd' : Header) (sk : Option SkillSection)
    (ex : Option ExperienceSection) (pj : Option ProjectSection) (ed : Option EducationSection)
    (h : (match ed with
          | some s => s.educations.all (Education.wfb now)
          | none => true) = true) :
    decodeEducation now (Resume.to_dict ⟨hd', sk, ex, pj, ed⟩) = .ok ed := by
  rcases ed with _ | ⟨⟨edl⟩⟩
  · rcases sk with _ | _ <;> rcases ex with _ | _ <;> rcases pj with _ | _ <;> rfl
  · have hmap := mapME_map_ok (fromEducationJ now) Education.to_dict edl
      (fun e he => education_roundtrip (List.all_eq_true.mp h e he))
    rcases sk with _ | _ <;> rcases ex with _ | _ <;> rcases pj with _ | _ <;>
    simp [decodeEducation, Resume.to_dict, EducationSection.to_dict, SkillSection.to_dict,
      ExperienceSection.to_dict, ProjectSection.to_dict, jGet, jGetD, lookupKey, asList,
      truthy, exBind_ok, exPure_eq, hmap]

/-- Serializing a well-formed document and re-validating it reconstructs
the document exactly. -/
theorem roundtrip_exact (now : Nat) (d : Resume) (h : Resume.wfb now d = true) :
    Resume.from_dict now d.to_dict = .ok d := by
  obtain ⟨hd, sk, ex, pj, ed⟩ := d
  simp only [Resume.wfb, Bool.and_eq_true] at h
  obtain ⟨⟨⟨⟨hh, hsk⟩, hex⟩, hpj⟩, hed⟩ := h
  have HhD : fromHeaderJ (jGetD (Resume.to_dict ⟨hd, sk, ex, pj, ed⟩) "header" (.obj [])) =
      .ok hd := by
    rw [show jGetD (Resume.to_dict ⟨hd, sk, ex, pj, ed⟩) "header" (.obj []) =
      Header.to_dict hd from rfl]
    exact header_roundtrip hh
  simp only [Resume.from_dict, HhD, decodeSkills_eval hd sk ex pj ed hsk,
    decodeExperience_eval now hd sk ex pj ed hex, decodeProjects_eval hd sk ex pj ed hpj,
    decodeEducation_eval now hd sk ex pj ed hed, exBind_ok, exPure_eq]

/-! ### Render-splitting lemmas -/

theorem joinSep_cons_ne (sep a : String) {l : List String} (h : l ≠ []) :
    joinSep sep (a :: l) = a ++ sep ++ joinSep sep l := by
  cases l with
  | nil => exact absurd rfl h
  | cons b bs => rfl

theorem str_append_left_cancel {a b c : String} (h : a ++ b = a ++ c) : b = c := by
  obtain ⟨la⟩ := a; obtain ⟨lb⟩ := b; obtain ⟨lc⟩ := c
  have hd : la ++ lb = la ++ lc := congrArg String.data h
  exact congrArg String.mk (List.append_cancel_left hd)

/-- The rendered output always splits as the preamble, a newline, and the
tail assembled from the section builders. -/
theorem render_split (r : Resume) :
    resume_to_latex r = LATEX_PREAMBLE ++ "\n" ++ renderTail r := by
  have hpre : (decide (LATEX_PREAMBLE ≠ "")) = true := by decide
  have hend : LATEX_END ∈ ([build_header r.header, build_skills r.skills,
      build_experience r.experience, build_projects r.projects,
      build_education r.education, LATEX_END]).filter (fun p => decide (p ≠ "")) :=
    List.mem_filter.mpr ⟨by simp, by decide⟩
  have hne := List.ne_nil_of_mem hend
  calc resume_to_latex r
      = joinSep "\n" (LATEX_PREAMBLE :: ([build_header r.header, build_skills r.skills,
          build_experience r.experience, build_projects r.projects,
          build_education r.education, LATEX_END]).filter (fun p => decide (p ≠ ""))) := by
        simp only [resume_to_latex, List.filter_cons, hpre, if_true]
    _ = LATEX_PREAMBLE ++ "\n" ++ renderTail r := by
        rw [joinSep_cons_ne _ _ hne]; rfl

theorem strEquiv_refl (d : Resume) : Resume.strEquiv d d := by
  refine ⟨⟨rfl, rfl, rfl, rfl, rfl, rfl⟩, ?_, ?_, ?_, ?_⟩
  · cases d.skills with
    | none => trivial
    | some s =>
      exact List.forall₂_same.mpr (fun st _ => ⟨rfl, fun x => Iff.rfl⟩)
  · cases d.experience with
    | none => trivial
    | some s =>
      exact List.forall₂_same.mpr (fun e _ => ⟨rfl, rfl, rfl, rfl, rfl⟩)
  · cases d.projects with
    | none => trivial
    | some s =>
      exact List.forall₂_same.mpr (fun p _ => ⟨rfl, rfl, rfl, rfl⟩)
  · cases d.education with
    | none => trivial
    | some s =>
      exact List.forall₂_same.mpr (fun e _ => ⟨rfl, rfl, rfl, rfl, rfl⟩)

/-! ### Claim theorems -/

/-- C1: for every validated Resume document, reconstructing it from its
serialized record (`Resume.from_dict (Resume.to_dict d)`) succeeds and
yields a document whose string-form fields all equal the original's:
header name and contacts, skill-group names and skill-name sets,
experience positions, companies, bullets and date strings, project names,
skills, bullets and links, and education school, degree, start date,
awards and GPA. -/
theorem c1_roundtrip_preserves_string_forms (now : Nat) (d : Resume)
    (h : Resume.wfb now d = true) :
    ∃ d', Resume.from_dict now d.to_dict = .ok d' ∧ Resume.strEquiv d d' :=
  ⟨d, roundtrip_exact now d h, strEquiv_refl d⟩

theorem c1_roundtrip_preserves_string_forms_witness :
    Resume.wfb sampleNow sampleResume = true ∧
    ∃ d', Resume.from_dict sampleNow sampleResume.to_dict = .ok d' ∧
      Resume.strEquiv sampleResume d' :=
  ⟨by decide, c1_roundtrip_preserves_string_forms sampleNow sampleResume (by decide)⟩

/-- C2: the escape function is total (a plain function on every string —
`None` aside, which maps to the empty string) and acts as a per-character
map: the result is the concatenation, over the characters of the input, of
the substitution-table entry for each of the ten special characters and of
the character itself for every other character. -/
theorem c2_esc_total_per_char_map :
    (∀ s : String, esc (some s) = concatAll (s.data.map escPiece)) ∧
    (escPiece '&' = "\\&" ∧ escPiece '%' = "\\%" ∧ escPiece '$' = "\\$" ∧
     escPiece '#' = "\\#" ∧ escPiece '_' = "\\_" ∧
     escPiece (Char.ofNat 123) = "\\\x7b" ∧ escPiece (Char.ofNat 125) = "\\\x7d" ∧
     escPiece '~' = "\\textasciitilde\x7b\x7d" ∧
     escPiece '^' = "\\textasciicircum\x7b\x7d" ∧
     escPiece '\\' = "\\textbackslash\x7b\x7d") ∧
    (∀ c : Char, c ∉ latexSpecialChars → escPiece c = String.singleton c) ∧
    esc none = "" := by
  refine ⟨?_, ⟨rfl, rfl, rfl, rfl, rfl, rfl, rfl, rfl, rfl, rfl⟩, ?_, rfl⟩
  · intro s
    have key : ∀ (l : List Char) (acc : List String),
        l.foldl (fun out c => out ++ [escPiece c]) acc = acc ++ l.map escPiece := by
      intro l
      induction l with
      | nil => intro acc; simp
      | cons c cs ih => intro acc; simp [ih]
    simp [esc, key]
  · intro c hc
    simp only [latexSpecialChars, List.mem_cons, List.not_mem_nil, or_false, not_or] at hc
    obtain ⟨h1, h2, h3, h4, h5, h6, h7, h8, h9, h10⟩ := hc
    simp [escPiece, latexSpecial, h1, h2, h3, h4, h5, h6, h7, h8, h9, h10]

theorem c2_esc_total_per_char_map_witness :
    ('x' ∉ latexSpecialChars ∧ escPiece 'x' = "x") ∧
    esc (some "5% o&o") = concatAll ("5% o&o".data.map escPiece) :=
  ⟨⟨by decide, c2_esc_total_per_char_map.2.2.1 'x' (by decide)⟩,
   c2_esc_total_per_char_map.1 "5% o&o"⟩

/-- C3 (claim as stated is false): the ten-ASCII-digit string followed by a
single trailing newline is not a ten-digit string, yet PhoneNumber
construction accepts it verbatim — Python's `$` anchor in
`re.match(r"^\d{10}$", v)` also matches just before a trailing newline. -/
theorem c3_phone_counterexample :
    specTenDigits "1234567890\n" = false ∧
    PhoneNumber.mk? "1234567890\n" = .ok "1234567890\n" :=
  ⟨by decide, by rfl⟩

/-- C3 (amended): construction succeeds, echoing the input as the string
form, exactly on ten-digit strings and on ten-digit strings followed by a
single trailing newline; every other input fails with the validation
error. -/
theorem c3_phone_validation_amended :
    (∀ s : String, PhoneNumber.mk? s = .ok s ↔
      (specTenDigits s = true ∨
        (endsWithNl s = true ∧ specTenDigits (dropLastChar s) = true))) ∧
    (∀ s : String, PhoneNumber.mk? s = .ok s ∨
      PhoneNumber.mk? s =
        .error ("Invalid phone number: " ++ s ++ ". Should be a 10 digit number.")) := by
  have hiff : ∀ s : String, phoneOk s = true ↔
      (specTenDigits s = true ∨
        (endsWithNl s = true ∧ specTenDigits (dropLastChar s) = true)) := by
    intro s
    show (specTenDigits s || (endsWithNl s && specTenDigits (dropLastChar s))) = true ↔ _
    simp [Bool.or_eq_true, Bool.and_eq_true]
  constructor
  · intro s
    by_cases hp : phoneOk s = true
    · simp [PhoneNumber.mk?, hp, (hiff s).mp hp]
    · have hp' : phoneOk s = false := by simpa using hp
      constructor
      · intro hok; exact absurd hok (by simp [PhoneNumber.mk?, hp'])
      · intro hd; exact absurd ((hiff s).mpr hd) hp
  · intro s
    by_cases hp : phoneOk s = true
    · left; simp [PhoneNumber.mk?, hp]
    · have hp' : phoneOk s = false := by simpa using hp
      right; simp [PhoneNumber.mk?, hp']

/-- C4: for an Experience built from non-empty position, company and bullet
list, construction fails with the validation error exactly when the start
date is ≥ the end date (the end defaulting to `present`, which compares as
the current moment) or the start date is after the current moment;
otherwise it succeeds. -/
theorem c4_experience_date_validation (now : Nat) (position company : String)
    (description : List BulletPoint) (start_date : Date) (endOpt : Option Date)
    (hp : position ≠ "") (hc : company ≠ "") (hd : description ≠ []) :
    ((start_date.toDatetime now ≥ (endOpt.getD ⟨"present"⟩).toDatetime now ∨
        start_date.toDatetime now > now) →
      Experience.init now position company description start_date endOpt =
        .error "Start date cannot be after end date or present time.") ∧
    (¬(start_date.toDatetime now ≥ (endOpt.getD ⟨"present"⟩).toDatetime now ∨
        start_date.toDatetime now > now) →
      ∃ e : Experience,
        Experience.init now position company description start_date endOpt = .ok e) := by
  have hor : ¬(position = "" ∨ company = "") := by
    intro h; rcases h with h | h
    · exact hp h
    · exact hc h
  constructor
  · intro h
    simp [Experience.init, hor, hd, h]
  · intro h
    refine ⟨⟨position, company, description, start_date, endOpt.getD ⟨"present"⟩⟩, ?_⟩
    simp [Experience.init, hor, hd, h]

theorem c4_experience_date_validation_witness :
    ("Dev" ≠ "" ∧ "Co" ≠ "" ∧ ([⟨"Did X"⟩] : List BulletPoint) ≠ []) ∧
    (∃ e : Experience, Experience.init sampleNow "Dev" "Co" [⟨"Did X"⟩]
        ⟨"01-01-2022"⟩ (some ⟨"01-01-2023"⟩) = .ok e) ∧
    Experience.init sampleNow "Dev" "Co" [⟨"Did X"⟩] ⟨"01-01-2024"⟩ (some ⟨"01-01-2023"⟩) =
      .error "Start date cannot be after end date or present time." :=
  ⟨⟨by decide, by decide, by decide⟩,
   (c4_experience_date_validation sampleNow "Dev" "Co" [⟨"Did X"⟩] ⟨"01-01-2022"⟩
      (some ⟨"01-01-2023"⟩) (by decide) (by decide) (by decide)).2 (by decide),
   (c4_experience_date_validation sampleNow "Dev" "Co" [⟨"Did X"⟩] ⟨"01-01-2024"⟩
      (some ⟨"01-01-2023"⟩) (by decide) (by decide) (by decide)).1 (by decide)⟩

/-- C5 (claim as stated is false): in the live model package, the
ExperienceSection, ProjectSection and EducationSection constructors accept
an empty list without error. -/
theorem c5_empty_sections_counterexample :
    ExperienceSection.init [] = .ok ⟨[]⟩ ∧ ProjectSection.init [] = .ok ⟨[]⟩ ∧
    EducationSection.init [] = .ok ⟨[]⟩ :=
  ⟨rfl, rfl, rfl⟩

/-- C5 (amended): SkillGroup's skill set does fail construction when empty,
and the legacy top-level module's section constructors reject empty lists,
but the live model package's ExperienceSection, ProjectSection and
EducationSection accept any list, an empty one included. -/
theorem c5_empty_collections_amended :
    (∀ name : String, SkillType.mk? name [] = .error "Skills cannot be empty.") ∧
    Legacy.ExperienceSection.mk? [] = .error "Experience section cannot be empty." ∧
    Legacy.ProjectSection.mk? [] = .error "Project section cannot be empty." ∧
    Legacy.EducationSection.mk? [] = .error "Education section cannot be empty." ∧
    (∀ experiences : List Experience,
      ExperienceSection.init experiences = .ok ⟨experiences⟩) ∧
    (∀ projects : List Project, ProjectSection.init projects = .ok ⟨projects⟩) ∧
    (∀ educations : List Education, EducationSection.init educations = .ok ⟨educations⟩) :=
  ⟨fun _ => rfl, rfl, rfl, rfl, fun _ => rfl, fun _ => rfl, fun _ => rfl⟩

/-- C6 (claim as stated is false): Header construction performs no name
validation — an empty name is accepted without error. -/
theorem c6_empty_name_counterexample :
    Header.init "" none none none none none = .ok ⟨"", none, none, none, none, none⟩ :=
  rfl

/-- C6 (amended): Header construction never fails — it succeeds for every
name (the empty string included) and every combination of the optional
contact fields, storing the arguments unchanged. -/
theorem c6_header_no_validation_amended :
    ∀ (name : String) (email number linkedin portfolio github : Option String),
      Header.init name email number linkedin portfolio github =
        .ok ⟨name, email, number, linkedin, portfolio, github⟩ :=
  fun _ _ _ _ _ _ => rfl

/-- C7: the builders of absent sections emit nothing, and a document whose
skills block is absent renders as the preamble followed by exactly the
non-skills sections — the skills section contributes no heading and no
content to the output. -/
theorem c7_absent_skills_contributes_nothing :
    build_skills none = "" ∧ build_experience none = "" ∧
    build_projects none = "" ∧ build_education none = "" ∧
    ∀ r : Resume, r.skills = none →
      resume_to_latex r = LATEX_PREAMBLE ++ "\n" ++ noSkillsTail r := by
  refine ⟨rfl, rfl, rfl, rfl, ?_⟩
  intro r hsk
  rw [render_split r]
  have : renderTail r = noSkillsTail r := by
    simp only [renderTail, noSkillsTail, hsk, build_skills, List.filter_cons]
    simp
  rw [this]

theorem c7_absent_skills_contributes_nothing_witness :
    noSkillsResume.skills = none ∧
    resume_to_latex noSkillsResume = LATEX_PREAMBLE ++ "\n" ++ noSkillsTail noSkillsResume :=
  ⟨rfl, c7_absent_skills_contributes_nothing.2.2.2.2 noSkillsResume rfl⟩

set_option maxRecDepth 40000 in
/-- C8 (claim as stated is false): two documents that are observably equal
— same header and the same unordered skill-name set in their one skill
group — render to different output texts when the set's iteration order
differs, because the skills line joins the set in iteration order.  Across
two runs of the program a Python `set` of strings may present either
order, so rendering is not determined by the document alone. -/
theorem c8_set_iteration_order_counterexample :
    Resume.strEquiv permResumeA permResumeB ∧
    resume_to_latex permResumeA ≠ resume_to_latex permResumeB := by
  constructor
  · refine ⟨⟨rfl, rfl, rfl, rfl, rfl, rfl⟩, ?_, trivial, trivial, trivial⟩
    refine List.Forall₂.cons ⟨rfl, ?_⟩ List.Forall₂.nil
    intro x
    simp only [List.mem_cons, List.not_mem_nil, or_false]
    tauto
  · intro h
    rw [render_split permResumeA, render_split permResumeB] at h
    have h2 := str_append_left_cancel
      (str_append_left_cancel ((String.append_assoc _ _ _).symm.trans
        (h.trans (String.append_assoc _ _ _))))
    have : renderTail permResumeA ≠ renderTail permResumeB := by decide
    exact this h2

/-- C8 (amended): rendering is a pure function of the serialized record —
for well-formed documents, equal `to_dict` records give identical output
text; determinism fails only through the unserialized iteration order of a
skill group's set, as the counterexample shows. -/
theorem c8_render_determined_by_record (now : Nat) (r1 r2 : Resume)
    (h1 : Resume.wfb now r1 = true) (h2 : Resume.wfb now r2 = true)
    (heq : r1.to_dict = r2.to_dict) : resume_to_latex r1 = resume_to_latex r2 := by
  have e1 := roundtrip_exact now r1 h1
  have e2 := roundtrip_exact now r2 h2
  rw [heq] at e1
  have := e1.symm.trans e2
  exact congrArg resume_to_latex (Except.ok.inj this)

theorem c8_render_determined_by_record_witness :
    Resume.wfb sampleNow sampleResume = true ∧
    resume_to_latex sampleResume = resume_to_latex sampleResume :=
  ⟨by decide, c8_render_determined_by_record sampleNow sampleResume sampleResume
    (by decide) (by decide) rfl⟩

/-- C9: `Date` accepts the token `present` case-insensitively and
canonicalizes it to the lowercase string `present`; every other input is
accepted verbatim when it parses as a `DD-MM-YYYY` calendar date and
rejected with a validation error otherwise. -/
theorem c9_date_present_canonicalization :
    (∀ s : String, asciiLower s = "present" → Date.mk? s = .ok ⟨"present"⟩) ∧
    (∀ s : String, asciiLower s ≠ "present" →
      (dmyOk s = true → Date.mk? s = .ok ⟨s⟩) ∧
      (dmyOk s = false →
        Date.mk? s = .error ("Invalid date (expected dd-mm-yyyy): " ++ s))) := by
  constructor
  · intro s h
    simp [Date.mk?, h]
  · intro s h
    constructor
    · intro hd
      simp only [dmyOk, Option.isSome_iff_exists] at hd
      obtain ⟨t, ht⟩ := hd
      simp [Date.mk?, h, ht]
    · intro hd
      cases hps : parseDMY s with
      | none => simp [Date.mk?, h, hps]
      | some t => simp [dmyOk, hps] at hd

theorem c9_date_present_canonicalization_witness :
    Date.mk? "PRESENT" = .ok ⟨"present"⟩ ∧ Date.mk? "Present" = .ok ⟨"present"⟩ ∧
    Date.mk? "31-12-2020" = .ok ⟨"31-12-2020"⟩ ∧
    Date.mk? "31-02-2020" = .error ("Invalid date (expected dd-mm-yyyy): " ++ "31-02-2020") :=
  ⟨c9_date_present_canonicalization.1 "PRESENT" (by decide),
   c9_date_present_canonicalization.1 "Present" (by decide),
   (c9_date_present_canonicalization.2 "31-12-2020" (by decide)).1 (by decide),
   (c9_date_present_canonicalization.2 "31-02-2020" (by decide)).2 (by decide)⟩

/-- C10: with an absent url (`None` or the empty string) the hyperlink
helper returns exactly the escaped label — no hyperlink-wrapping construct
is added — and with a url present the url is inserted verbatim while only
the label is escaped. -/
theorem c10_href_degrades_to_plain_label :
    (∀ (label : String) (blue : Bool), href none label blue = esc (some label)) ∧
    (∀ (label : String) (blue : Bool), href (some "") label blue = esc (some label)) ∧
    (∀ url label : String, url ≠ "" →
      href (some url) label true =
        "\\href\x7b" ++ url ++ "\x7d\x7b\\textcolor\x7bvibrantblue\x7d\x7b" ++
          esc (some label) ++ "\x7d\x7d" ∧
      href (some url) label false =
        "\\href\x7b" ++ url ++ "\x7d\x7b" ++ esc (some label) ++ "\x7d") := by
  refine ⟨fun _ _ => rfl, fun _ _ => rfl, ?_⟩
  intro url label hurl
  constructor <;> simp [href, hurl]

theorem c10_href_degrades_to_plain_label_witness :
    href (some "https://x.y") "A&B" true =
      "\\href\x7bhttps://x.y\x7d\x7b\\textcolor\x7bvibrantblue\x7d\x7bA\\&B\x7d\x7d" ∧
    href (some "https://x.y") "A&B" false = "\\href\x7bhttps://x.y\x7d\x7bA\\&B\x7d" := by
  have h := c10_href_degrades_to_plain_label.2.2 "https://x.y" "A&B" (by decide)
  exact ⟨h.1.trans (by rfl), h.2.trans (by rfl)⟩
